import Mathlib

/-!
Verification of the prompt-selection and response-delivery pipeline of the
aristotle-api-node backend.

The definitions below are a shallow embedding of the TypeScript source:

* `getSystemPrompt` embeds the `getSystemPrompt` function of
  `src/src/server.ts` (lines 157-243).  JavaScript template-literal
  interpolation `${topic}` of an `undefined` value produces the string
  "undefined", which `topicStr` reproduces.
* `assemble` / `runAssembly` embed the message-assembly section of the
  `POST /api/chat` handler (lines 51-67): one leading system message whose
  content is the generated prompt, followed by the caller-supplied history
  projected down to `{role, content}`.
* `streamDeliver` embeds the streaming response loop (lines 82-96): for
  each upstream chunk whose `choices[0]?.delta?.content` is truthy
  (present and non-empty), write a `data: <JSON string>` frame and wait
  100 ms; on normal end of the iterator write `data: [DONE]` and end the
  response; if the iterator raises, the catch block only ends the response.
* `bufferedChat` embeds the buffered `POST /api/chat` handler of
  `src/server.js` (lines 32-82): on success a single
  `res.json({response})`, on any thrown error a single
  `res.status(500).json({error: ...})`.
-/

set_option maxRecDepth 8192

namespace AristotleApi

/-- Message roles accepted by the upstream API (`Message` interface). -/
inductive Role where
  | system
  | user
  | assistant
deriving DecidableEq, Repr

/-- An outbound message as built by the handler: `{role, content}`. -/
structure Message where
  role : Role
  content : String
deriving DecidableEq, Repr

/-- A caller-supplied history entry (`Message` interface of the source,
with its optional `name` field). -/
structure ClientMessage where
  role : Role
  content : String
  name : Option String
deriving DecidableEq, Repr

/-- The fixed closing instruction block of `getSystemPrompt`
(`src/src/server.ts` line 158). -/
def endingInstruction : String :=
  "Be sure to ask the user questions and be as interactive as possible. Your goal is to foster learning and deep thinking, and be sure to relate back to topics from your works or stories from your life. If this is your first message in the dialogue, take a sentence to introduce yourself. Try to consistently relate your ideas and concepts back to the life of the individual. It is important to discuss and explain the more abstract topic itself, but making it relevant to the user is key to learning. Please keep your responses under 5 sentences."

/-- JavaScript template-literal interpolation of the optional `topic`
parameter: an `undefined` value interpolates as the string "undefined". -/
def topicStr : Option String → String
  | none => "undefined"
  | some t => t

/-- Shallow embedding of `getSystemPrompt(figure, mode, topic)`
(`src/src/server.ts` lines 157-243).  The `switch` on `figure` with a
`break` out of each recognized case and a trailing `return ''` is embedded
as nested conditionals whose per-figure branches end in `""`. -/
def getSystemPrompt (figure mode : String) (topic : Option String) : String :=
  if figure = "Aristotle" then
    if mode = "socratic" then
      "You are Aristotle, the ancient Greek philosopher. Engage the user in a Socratic dialogue about \"" ++ topicStr topic ++ "\". Challenge their assumptions and guide them toward a refined understanding. " ++ endingInstruction
    else if mode = "teaching" then
      "You are Aristotle, teaching about \"" ++ topicStr topic ++ "\". Provide insightful explanations and examples. " ++ endingInstruction
    else ""
  else if figure = "Albert Einstein" then
    if mode = "thought_experiment" then
      "You are Albert Einstein. Engage the user in a thought experiment about \"" ++ topicStr topic ++ "\". Encourage deep thinking about complex concepts. " ++ endingInstruction
    else if mode = "lesson" then
      "You are Albert Einstein, teaching about \"" ++ topicStr topic ++ "\". Explain the theories and their implications clearly. " ++ endingInstruction
    else ""
  else if figure = "Leonardo da Vinci" then
    if mode = "brainstorm" then
      "You are Leonardo da Vinci. Collaborate with the user on \"" ++ topicStr topic ++ "\". Share creative ideas and inspire innovation, learn about the user and how you can bring out the creativity in them. " ++ endingInstruction
    else if mode = "lesson" then
      "You are Leonardo da Vinci, teaching about \"" ++ topicStr topic ++ "\". Provide detailed insights and techniques. " ++ endingInstruction
    else ""
  else if figure = "Napoleon Bonaparte" then
    if mode = "simulation" then
      "You are Napoleon Bonaparte. Engage the user in a military simulation focused on \"" ++ topicStr topic ++ "\". Offer strategic insights, and emphasize how this could relate to someone\x27s personal daily life. " ++ endingInstruction
    else if mode = "lesson" then
      "You are Napoleon Bonaparte, teaching about \"" ++ topicStr topic ++ "\". Share leadership principles and experiences. " ++ endingInstruction
    else ""
  else if figure = "Cleopatra" then
    if mode = "role_play" then
      "You are Cleopatra. Engage the user in a role-playing scenario about \"" ++ topicStr topic ++ "\". Navigate diplomatic challenges together. " ++ endingInstruction
    else if mode = "lesson" then
      "You are Cleopatra, teaching about \"" ++ topicStr topic ++ "\". Share historical insights and cultural knowledge. " ++ endingInstruction
    else ""
  else if figure = "Confucius" then
    if mode = "discussion" then
      "You are Confucius. Engage the user in a philosophical discussion about \"" ++ topicStr topic ++ "\". Offer wisdom and provoke thought. " ++ endingInstruction
    else if mode = "lesson" then
      "You are Confucius, teaching about \"" ++ topicStr topic ++ "\". Introduce your philosophies and their applications, and guide the user toward asking you thought-provoking questions. " ++ endingInstruction
    else ""
  else if figure = "Charles Darwin" then
    if mode = "teaching" then
      "You are Charles Darwin, teaching about \"" ++ topicStr topic ++ "\". Explain the principles of evolution and natural selection, relating them to examples from your observations. " ++ endingInstruction
    else if mode = "discussion" then
      "You are Charles Darwin. Engage the user in a discussion about \"" ++ topicStr topic ++ "\". Encourage exploration of the natural world and consideration of the processes that drive evolution. " ++ endingInstruction
    else ""
  else if figure = "The Rebbe" then
    if mode = "guidance" then
      "You are Rabbi Menachem Mendel Schneerson, known as The Rebbe. Provide spiritual guidance on \"" ++ topicStr topic ++ "\". Offer insights based on Jewish teachings and Chassidic philosophy. " ++ endingInstruction
    else if mode = "teaching" then
      "You are The Rebbe, teaching about \"" ++ topicStr topic ++ "\". Share wisdom from Jewish mysticism and inspire the user to find meaning and purpose. " ++ endingInstruction
    else ""
  else if figure = "David Bowie" then
    if mode = "creative_discussion" then
      "You are David Bowie. Engage the user in a creative discussion about \"" ++ topicStr topic ++ "\". Explore themes of reinvention, creativity, and challenging norms. " ++ endingInstruction
    else if mode = "philosophy" then
      "You are David Bowie, sharing your philosophical insights on \"" ++ topicStr topic ++ "\". Reflect on art, identity, and the nature of change. " ++ endingInstruction
    else ""
  else
    if mode = "scenario" then
      "You are " ++ figure ++ ", offering advice based on your expertise and experiences. Provide thoughtful guidance to the user\x27s situation or question. " ++ endingInstruction
    else
      "You are " ++ figure ++ ". Engage in a meaningful conversation with the user. " ++ endingInstruction

/-- The figure identifiers carrying a dedicated `case` in the `switch`. -/
def recognizedFigures : List String :=
  ["Aristotle", "Albert Einstein", "Leonardo da Vinci", "Napoleon Bonaparte",
   "Cleopatra", "Confucius", "Charles Darwin", "The Rebbe", "David Bowie"]

/-- The modes a recognized figure's `case` handles (empty for figures
without a dedicated `case`). -/
def figureModes (figure : String) : List String :=
  if figure = "Aristotle" then ["socratic", "teaching"]
  else if figure = "Albert Einstein" then ["thought_experiment", "lesson"]
  else if figure = "Leonardo da Vinci" then ["brainstorm", "lesson"]
  else if figure = "Napoleon Bonaparte" then ["simulation", "lesson"]
  else if figure = "Cleopatra" then ["role_play", "lesson"]
  else if figure = "Confucius" then ["discussion", "lesson"]
  else if figure = "Charles Darwin" then ["teaching", "discussion"]
  else if figure = "The Rebbe" then ["guidance", "teaching"]
  else if figure = "David Bowie" then ["creative_discussion", "philosophy"]
  else []

/-- Projection applied to each history entry by the handler
(`clientMessages.map((msg) => ({role: msg.role, content: msg.content}))`,
`src/src/server.ts` lines 62-65). -/
def projectMsg (m : ClientMessage) : Message :=
  { role := m.role, content := m.content }

/-- Shallow embedding of the message assembly of `POST /api/chat`
(`src/src/server.ts` lines 51-67): push the system message built from
`getSystemPrompt`, then push the projected history entries in order. -/
def assemble (figure mode : String) (topic : Option String)
    (history : List ClientMessage) : List Message :=
  { role := Role.system, content := getSystemPrompt figure mode topic } ::
    history.map projectMsg

/-- The handler's local state: the caller-supplied `clientMessages`
binding and the `messages` array being built.  Mutation (the two `push`
calls) is embedded as explicit state passing. -/
structure HandlerState where
  clientMessages : List ClientMessage
  messages : List Message
deriving DecidableEq, Repr

/-- State-passing embedding of the assembly block of the handler body:
`messages.push({role: system, content: systemPrompt})` followed by
`messages.push(...conversation)`.  Nothing writes to `clientMessages`. -/
def runAssembly (figure mode : String) (topic : Option String)
    (st : HandlerState) : HandlerState :=
  let systemPrompt := getSystemPrompt figure mode topic
  let st₁ : HandlerState :=
    { st with messages := st.messages ++ [{ role := Role.system, content := systemPrompt }] }
  let conversation := st₁.clientMessages.map projectMsg
  { st₁ with messages := st₁.messages ++ conversation }

/-- One event observed on the HTTP response object during streaming:
a `res.write`, an `await delay(ms)`, or a `res.end()`. -/
inductive Ev where
  | write (s : String)
  | wait (ms : Nat)
  | close
deriving DecidableEq, Repr

/-- The terminal SSE frame (`res.write('data: [DONE]\n\n')`). -/
def doneFrameStr : String := "data: [DONE]\n\n"

/-- Hexadecimal digit used by the `\u00XX` escapes of `JSON.stringify`. -/
def hexDigit (n : Nat) : Char :=
  if n < 10 then Char.ofNat (48 + n) else Char.ofNat (87 + n)

/-- Per-character escaping of `JSON.stringify` on a string value. -/
def jsonEscapeChar (c : Char) : String :=
  if c = '\"' then "\\\""
  else if c = '\\' then "\\\\"
  else if c = '\n' then "\\n"
  else if c = '\r' then "\\r"
  else if c = '\t' then "\\t"
  else if c = Char.ofNat 8 then "\\b"
  else if c = Char.ofNat 12 then "\\f"
  else if c.toNat < 32 then
    "\\u00" ++ String.mk [hexDigit (c.toNat / 16), hexDigit (c.toNat % 16)]
  else String.singleton c

/-- Body of `JSON.stringify(content)`: the escaped characters. -/
def jsonEscape (s : String) : String :=
  String.join (s.data.map jsonEscapeChar)

/-- `JSON.stringify` applied to a string value. -/
def jsonEncodeString (s : String) : String :=
  "\"" ++ jsonEscape s ++ "\""

/-- The SSE data frame written for one fragment:
`res.write('data: ' + JSON.stringify(content) + '\n\n')`. -/
def dataFrameStr (content : String) : String :=
  "data: " ++ jsonEncodeString content ++ "\n\n"

/-- The upstream async-iterable of completion chunks, as observed by the
`for await` loop: each element carries `data.choices[0]?.delta?.content`
(`none` when any link of that optional chain is absent); the sequence
either ends normally (`nil`) or raises an error (`fail`). -/
inductive UpStream where
  | nil
  | fail
  | cons (content : Option String) (rest : UpStream)
deriving DecidableEq, Repr

/-- Events produced for one chunk by the loop body: `if (content)` is the
JavaScript truthiness test, false for an absent content and for the empty
string; a truthy content is written as a data frame followed by
`await delay(100)`. -/
def chunkEvents (content : Option String) : List Ev :=
  match content with
  | some s => if s = "" then [] else [Ev.write (dataFrameStr s), Ev.wait 100]
  | none => []

/-- Shallow embedding of the streaming response loop
(`src/src/server.ts` lines 82-96): iterate the chunks; on normal
completion write the terminal frame and end the response; if the iterator
raises, the catch block ends the response without writing anything. -/
def streamDeliver : UpStream → List Ev
  | UpStream.nil => [Ev.write doneFrameStr, Ev.close]
  | UpStream.fail => [Ev.close]
  | UpStream.cons c rest => chunkEvents c ++ streamDeliver rest

/-- The fragments of an upstream sequence: the truthy chunk contents, in
order. -/
def fragments : UpStream → List String
  | UpStream.nil => []
  | UpStream.fail => []
  | UpStream.cons c rest =>
    (match c with
     | some s => if s = "" then [] else [s]
     | none => []) ++ fragments rest

/-- Whether the upstream sequence ends by raising an error. -/
def endsWithError : UpStream → Bool
  | UpStream.nil => false
  | UpStream.fail => true
  | UpStream.cons _ rest => endsWithError rest

/-- The strings written to the transport, in order. -/
def writesOf (evs : List Ev) : List String :=
  evs.filterMap fun e =>
    match e with
    | Ev.write s => some s
    | _ => none

/-- How many times the transport is closed. -/
def closeCount (evs : List Ev) : Nat :=
  (evs.filter fun e =>
    match e with
    | Ev.close => true
    | _ => false).length

/-- A JSON value as far as the response bodies need: a string or `null`. -/
inductive JVal where
  | jstr (s : String)
  | jnull
deriving DecidableEq, Repr

/-- One response written by a buffered handler: an HTTP status and a
single-key JSON object body. -/
structure HttpResponse where
  status : Nat
  body : List (String × JVal)
deriving DecidableEq, Repr

/-- The static error message of the buffered `catch` block of
`POST /api/chat` (`src/server.js` line 80). -/
def chatErrorMessage : String := "An error occurred while processing your request."

/-- `message.content` of one upstream choice (`null` allowed). -/
structure ChoiceMessage where
  content : Option String
deriving DecidableEq, Repr

/-- One element of `completion.choices`. -/
structure Choice where
  message : ChoiceMessage
deriving DecidableEq, Repr

/-- Shallow embedding of the buffered `POST /api/chat` handler
(`src/server.js` lines 32-82), parameterized by the outcome of the
upstream call: on a resolved completion, `completion.choices[0].message`
throws when `choices` is empty (caught by the same `catch`), otherwise a
single `res.json({response: aiResponse})` is written; on a rejected call
the `catch` writes a single `res.status(500).json({error: ...})`.  The
result lists every response written, in order. -/
def bufferedChat (upstream : Except Unit (List Choice)) : List HttpResponse :=
  match upstream with
  | Except.error _ =>
    [{ status := 500, body := [("error", JVal.jstr chatErrorMessage)] }]
  | Except.ok choices =>
    match choices[0]? with
    | none =>
      [{ status := 500, body := [("error", JVal.jstr chatErrorMessage)] }]
    | some c =>
      [{ status := 200,
         body := [("response",
           match c.message.content with
           | some s => JVal.jstr s
           | none => JVal.jnull)] }]

example : getSystemPrompt "Aristotle" "lesson" (some "courage") = "" := by rfl

example :
    getSystemPrompt "Aristotle" "socratic" (some "courage") =
      "You are Aristotle, the ancient Greek philosopher. Engage the user in a Socratic dialogue about \"courage\". Challenge their assumptions and guide them toward a refined understanding. " ++ endingInstruction := by
  rfl

example :
    getSystemPrompt "Unknown Person" "anything" none =
      "You are Unknown Person. Engage in a meaningful conversation with the user. " ++ endingInstruction := by
  rfl

/-- Whether a figure has a dedicated `case` in the `switch`. -/
def recognizedFigure (figure : String) : Bool :=
  recognizedFigures.any fun f => figure = f

/-- Whether the mode is one the figure's `case` handles. -/
def supportedMode (figure mode : String) : Bool :=
  (figureModes figure).any fun m => mode = m

/-! ### Helper lemmas -/

theorem string_length_pos_of_ne_empty (s : String) (h : s ≠ "") : 0 < s.length := by
  cases s with
  | mk data =>
    cases data with
    | nil => exact absurd rfl h
    | cons a l => simp [String.length]

theorem unrecognized_fallback (figure mode : String) (topic : Option String)
    (hf : recognizedFigure figure = false) :
    getSystemPrompt figure mode topic =
      if mode = "scenario" then
        "You are " ++ figure ++ ", offering advice based on your expertise and experiences. Provide thoughtful guidance to the user\x27s situation or question. " ++ endingInstruction
      else
        "You are " ++ figure ++ ". Engage in a meaningful conversation with the user. " ++ endingInstruction := by
  by_cases h1 : figure = "Aristotle"
  · rw [h1] at hf; exact absurd hf (by decide)
  by_cases h2 : figure = "Albert Einstein"
  · rw [h2] at hf; exact absurd hf (by decide)
  by_cases h3 : figure = "Leonardo da Vinci"
  · rw [h3] at hf; exact absurd hf (by decide)
  by_cases h4 : figure = "Napoleon Bonaparte"
  · rw [h4] at hf; exact absurd hf (by decide)
  by_cases h5 : figure = "Cleopatra"
  · rw [h5] at hf; exact absurd hf (by decide)
  by_cases h6 : figure = "Confucius"
  · rw [h6] at hf; exact absurd hf (by decide)
  by_cases h7 : figure = "Charles Darwin"
  · rw [h7] at hf; exact absurd hf (by decide)
  by_cases h8 : figure = "The Rebbe"
  · rw [h8] at hf; exact absurd hf (by decide)
  by_cases h9 : figure = "David Bowie"
  · rw [h9] at hf; exact absurd hf (by decide)
  simp [getSystemPrompt, h1, h2, h3, h4, h5, h6, h7, h8, h9]

theorem unsupported_empty (figure mode : String) (topic : Option String)
    (hr : recognizedFigure figure = true) (hm : supportedMode figure mode = false) :
    getSystemPrompt figure mode topic = "" := by
  simp [recognizedFigure, recognizedFigures] at hr
  rcases hr with h | h | h | h | h | h | h | h | h <;>
    subst h <;>
    simp [supportedMode, figureModes] at hm <;>
    simp [getSystemPrompt, hm.1, hm.2]

theorem supported_shape (figure mode : String) (hm : supportedMode figure mode = true) :
    ∃ pre mid : String, pre ≠ "" ∧ ∀ topic : Option String,
      getSystemPrompt figure mode topic =
        pre ++ topicStr topic ++ mid ++ endingInstruction := by
  by_cases h1 : figure = "Aristotle"
  · subst h1
    simp [supportedMode, figureModes] at hm
    rcases hm with h | h <;> subst h <;> refine ⟨_, _, ?_, fun topic => rfl⟩ <;> decide
  by_cases h2 : figure = "Albert Einstein"
  · subst h2
    simp [supportedMode, figureModes] at hm
    rcases hm with h | h <;> subst h <;> refine ⟨_, _, ?_, fun topic => rfl⟩ <;> decide
  by_cases h3 : figure = "Leonardo da Vinci"
  · subst h3
    simp [supportedMode, figureModes] at hm
    rcases hm with h | h <;> subst h <;> refine ⟨_, _, ?_, fun topic => rfl⟩ <;> decide
  by_cases h4 : figure = "Napoleon Bonaparte"
  · subst h4
    simp [supportedMode, figureModes] at hm
    rcases hm with h | h <;> subst h <;> refine ⟨_, _, ?_, fun topic => rfl⟩ <;> decide
  by_cases h5 : figure = "Cleopatra"
  · subst h5
    simp [supportedMode, figureModes] at hm
    rcases hm with h | h <;> subst h <;> refine ⟨_, _, ?_, fun topic => rfl⟩ <;> decide
  by_cases h6 : figure = "Confucius"
  · subst h6
    simp [supportedMode, figureModes] at hm
    rcases hm with h | h <;> subst h <;> refine ⟨_, _, ?_, fun topic => rfl⟩ <;> decide
  by_cases h7 : figure = "Charles Darwin"
  · subst h7
    simp [supportedMode, figureModes] at hm
    rcases hm with h | h <;> subst h <;> refine ⟨_, _, ?_, fun topic => rfl⟩ <;> decide
  by_cases h8 : figure = "The Rebbe"
  · subst h8
    simp [supportedMode, figureModes] at hm
    rcases hm with h | h <;> subst h <;> refine ⟨_, _, ?_, fun topic => rfl⟩ <;> decide
  by_cases h9 : figure = "David Bowie"
  · subst h9
    simp [supportedMode, figureModes] at hm
    rcases hm with h | h <;> subst h <;> refine ⟨_, _, ?_, fun topic => rfl⟩ <;> decide
  simp [supportedMode, figureModes, h1, h2, h3, h4, h5, h6, h7, h8, h9] at hm

theorem writesOf_append (a b : List Ev) :
    writesOf (a ++ b) = writesOf a ++ writesOf b := by
  simp [writesOf]

theorem closeCount_append (a b : List Ev) :
    closeCount (a ++ b) = closeCount a + closeCount b := by
  simp [closeCount]

theorem writesOf_cons_write (s : String) (l : List Ev) :
    writesOf (Ev.write s :: l) = s :: writesOf l := rfl

theorem writesOf_cons_wait (ms : Nat) (l : List Ev) :
    writesOf (Ev.wait ms :: l) = writesOf l := rfl

theorem closeCount_cons_write (s : String) (l : List Ev) :
    closeCount (Ev.write s :: l) = closeCount l := rfl

theorem closeCount_cons_wait (ms : Nat) (l : List Ev) :
    closeCount (Ev.wait ms :: l) = closeCount l := rfl

theorem writesOf_frameBlocks (l : List String) :
    writesOf ((l.map fun c => [Ev.write (dataFrameStr c), Ev.wait 100]).flatten) =
      l.map dataFrameStr := by
  induction l with
  | nil => rfl
  | cons x xs ih =>
    simp [writesOf_cons_write, writesOf_cons_wait, ih]

theorem closeCount_frameBlocks (l : List String) :
    closeCount ((l.map fun c => [Ev.write (dataFrameStr c), Ev.wait 100]).flatten) = 0 := by
  induction l with
  | nil => rfl
  | cons x xs ih =>
    simp [closeCount_cons_write, closeCount_cons_wait, ih]

theorem dataFrame_ne_done (c : String) : dataFrameStr c ≠ doneFrameStr := by
  intro h
  have hd := congrArg String.data h
  simp only [dataFrameStr, jsonEncodeString, doneFrameStr, String.data_append] at hd
  simp at hd

theorem streamDeliver_ok (s : UpStream) (h : endsWithError s = false) :
    streamDeliver s =
      ((fragments s).map fun c => [Ev.write (dataFrameStr c), Ev.wait 100]).flatten ++
        [Ev.write doneFrameStr, Ev.close] := by
  induction s with
  | nil => rfl
  | fail => simp [endsWithError] at h
  | cons c rest ih =>
    simp only [endsWithError] at h
    rcases c with _ | s0
    · simpa [streamDeliver, fragments, chunkEvents] using ih h
    · by_cases hs : s0 = ""
      · simp [streamDeliver, fragments, chunkEvents, hs, ih h]
      · simp [streamDeliver, fragments, chunkEvents, hs, ih h]

theorem streamDeliver_err (s : UpStream) (h : endsWithError s = true) :
    streamDeliver s =
      ((fragments s).map fun c => [Ev.write (dataFrameStr c), Ev.wait 100]).flatten ++
        [Ev.close] := by
  induction s with
  | nil => simp [endsWithError] at h
  | fail => rfl
  | cons c rest ih =>
    simp only [endsWithError] at h
    rcases c with _ | s0
    · simpa [streamDeliver, fragments, chunkEvents] using ih h
    · by_cases hs : s0 = ""
      · simp [streamDeliver, fragments, chunkEvents, hs, ih h]
      · simp [streamDeliver, fragments, chunkEvents, hs, ih h]

theorem writesOf_cons_close (l : List Ev) :
    writesOf (Ev.close :: l) = writesOf l := rfl

theorem closeCount_cons_close (l : List Ev) :
    closeCount (Ev.close :: l) = closeCount l + 1 := rfl

/-! ### Claim theorems -/

/-- C3: in streaming delivery, an upstream chunk sequence ending without
error and containing `N` truthy-content chunks produces exactly `N + 1`
written frames — one data frame per non-empty-content chunk with its
content JSON-encoded, in upstream order, each followed by the fixed
100-unit delay, empty-content chunks producing no frame — followed by the
single terminal frame, after which the transport is closed exactly once. -/
theorem streaming_success_frames (s : UpStream) (h : endsWithError s = false) :
    streamDeliver s =
      ((fragments s).map fun c => [Ev.write (dataFrameStr c), Ev.wait 100]).flatten ++
        [Ev.write doneFrameStr, Ev.close] ∧
    writesOf (streamDeliver s) = (fragments s).map dataFrameStr ++ [doneFrameStr] ∧
    (writesOf (streamDeliver s)).length = (fragments s).length + 1 ∧
    closeCount (streamDeliver s) = 1 := by
  have tr := streamDeliver_ok s h
  have hw : writesOf (streamDeliver s) = (fragments s).map dataFrameStr ++ [doneFrameStr] := by
    rw [tr, writesOf_append, writesOf_frameBlocks]
    rfl
  refine ⟨tr, hw, ?_, ?_⟩
  · rw [hw]
    simp
  · rw [tr, closeCount_append, closeCount_frameBlocks]
    rfl

theorem streaming_success_frames_witness :
    endsWithError
        (UpStream.cons (some "Hello") (UpStream.cons none
          (UpStream.cons (some "") (UpStream.cons (some " world") UpStream.nil)))) = false ∧
    (streamDeliver
        (UpStream.cons (some "Hello") (UpStream.cons none
          (UpStream.cons (some "") (UpStream.cons (some " world") UpStream.nil)))) =
      ((fragments
        (UpStream.cons (some "Hello") (UpStream.cons none
          (UpStream.cons (some "") (UpStream.cons (some " world") UpStream.nil))))).map
            fun c => [Ev.write (dataFrameStr c), Ev.wait 100]).flatten ++
        [Ev.write doneFrameStr, Ev.close] ∧
    writesOf (streamDeliver
        (UpStream.cons (some "Hello") (UpStream.cons none
          (UpStream.cons (some "") (UpStream.cons (some " world") UpStream.nil))))) =
      (fragments
        (UpStream.cons (some "Hello") (UpStream.cons none
          (UpStream.cons (some "") (UpStream.cons (some " world") UpStream.nil))))).map
            dataFrameStr ++ [doneFrameStr] ∧
    (writesOf (streamDeliver
        (UpStream.cons (some "Hello") (UpStream.cons none
          (UpStream.cons (some "") (UpStream.cons (some " world") UpStream.nil)))))).length =
      (fragments
        (UpStream.cons (some "Hello") (UpStream.cons none
          (UpStream.cons (some "") (UpStream.cons (some " world") UpStream.nil))))).length + 1 ∧
    closeCount (streamDeliver
        (UpStream.cons (some "Hello") (UpStream.cons none
          (UpStream.cons (some "") (UpStream.cons (some " world") UpStream.nil))))) = 1) :=
  ⟨rfl, streaming_success_frames _ rfl⟩

/-- C4: in streaming delivery, if the upstream sequence raises an error
after its yielded chunks, exactly the data frames of the truthy-content
chunks seen so far have been written, no terminal frame and no other frame
is written, and the transport is closed exactly once. -/
theorem streaming_error_frames (s : UpStream) (h : endsWithError s = true) :
    streamDeliver s =
      ((fragments s).map fun c => [Ev.write (dataFrameStr c), Ev.wait 100]).flatten ++
        [Ev.close] ∧
    writesOf (streamDeliver s) = (fragments s).map dataFrameStr ∧
    doneFrameStr ∉ writesOf (streamDeliver s) ∧
    closeCount (streamDeliver s) = 1 := by
  have tr := streamDeliver_err s h
  have hw : writesOf (streamDeliver s) = (fragments s).map dataFrameStr := by
    rw [tr, writesOf_append, writesOf_frameBlocks]
    simp [writesOf_cons_close]
    rfl
  refine ⟨tr, hw, ?_, ?_⟩
  · rw [hw]
    intro hmem
    rcases List.mem_map.mp hmem with ⟨c, _, hc⟩
    exact dataFrame_ne_done c hc
  · rw [tr, closeCount_append, closeCount_frameBlocks]
    rfl

theorem streaming_error_frames_witness :
    endsWithError
        (UpStream.cons (some "Hello") (UpStream.cons none UpStream.fail)) = true ∧
    (streamDeliver (UpStream.cons (some "Hello") (UpStream.cons none UpStream.fail)) =
      ((fragments (UpStream.cons (some "Hello") (UpStream.cons none UpStream.fail))).map
          fun c => [Ev.write (dataFrameStr c), Ev.wait 100]).flatten ++ [Ev.close] ∧
    writesOf (streamDeliver (UpStream.cons (some "Hello") (UpStream.cons none UpStream.fail))) =
      (fragments (UpStream.cons (some "Hello") (UpStream.cons none UpStream.fail))).map
        dataFrameStr ∧
    doneFrameStr ∉
      writesOf (streamDeliver (UpStream.cons (some "Hello") (UpStream.cons none UpStream.fail))) ∧
    closeCount (streamDeliver (UpStream.cons (some "Hello") (UpStream.cons none UpStream.fail))) =
      1) :=
  ⟨rfl, streaming_error_frames _ rfl⟩

/-- C1 (counterexample): at the recognized figure "Aristotle" with the
unsupported mode "lesson", `getSystemPrompt` returns the empty string, not
the generic per-figure fallback template and not the scenario-advice
template — refuting the claim that the fallback applies to recognized
figures with unsupported modes. -/
theorem fallback_policy_counterexample :
    getSystemPrompt "Aristotle" "lesson" (some "courage") = "" ∧
    getSystemPrompt "Aristotle" "lesson" (some "courage") ≠
      "You are " ++ "Aristotle" ++ ". Engage in a meaningful conversation with the user. " ++ endingInstruction ∧
    getSystemPrompt "Aristotle" "lesson" (some "courage") ≠
      "You are " ++ "Aristotle" ++ ", offering advice based on your expertise and experiences. Provide thoughtful guidance to the user\x27s situation or question. " ++ endingInstruction := by
  refine ⟨rfl, ?_, ?_⟩ <;> decide

/-- C1 (amended): if the figure is unrecognized the result is the generic
per-figure fallback template (the scenario-advice template instead when
mode equals "scenario"); but if the figure is recognized and the mode is
not one of its supported modes, the result is the empty string, not the
fallback. -/
theorem fallback_policy_amended (figure mode : String) (topic : Option String) :
    (recognizedFigure figure = false →
      getSystemPrompt figure mode topic =
        if mode = "scenario" then
          "You are " ++ figure ++ ", offering advice based on your expertise and experiences. Provide thoughtful guidance to the user\x27s situation or question. " ++ endingInstruction
        else
          "You are " ++ figure ++ ". Engage in a meaningful conversation with the user. " ++ endingInstruction) ∧
    (recognizedFigure figure = true → supportedMode figure mode = false →
      getSystemPrompt figure mode topic = "") :=
  ⟨fun hf => unrecognized_fallback figure mode topic hf,
   fun hr hm => unsupported_empty figure mode topic hr hm⟩

theorem fallback_policy_amended_witness :
    getSystemPrompt "Sun Tzu" "scenario" none =
      (if ("scenario" : String) = "scenario" then
        "You are " ++ "Sun Tzu" ++ ", offering advice based on your expertise and experiences. Provide thoughtful guidance to the user\x27s situation or question. " ++ endingInstruction
      else
        "You are " ++ "Sun Tzu" ++ ". Engage in a meaningful conversation with the user. " ++ endingInstruction) ∧
    getSystemPrompt "Aristotle" "lesson" none = "" :=
  ⟨(fallback_policy_amended "Sun Tzu" "scenario" none).1 (by decide),
   (fallback_policy_amended "Aristotle" "lesson" none).2 (by decide) (by decide)⟩

/-- C2 (counterexample): at the recognized figure "Aristotle" with the
unsupported mode "lesson", the returned text is the empty string, which
does not end with the closing instruction block — refuting the claim that
every returned prompt ends with `endingInstruction`. -/
theorem endingInstruction_suffix_counterexample :
    getSystemPrompt "Aristotle" "lesson" (some "courage") = "" ∧
    ¬ ∃ pre : String,
        getSystemPrompt "Aristotle" "lesson" (some "courage") = pre ++ endingInstruction := by
  refine ⟨rfl, ?_⟩
  rintro ⟨pre, hpre⟩
  rw [show getSystemPrompt "Aristotle" "lesson" (some "courage") = "" from rfl] at hpre
  have hlen := congrArg String.length hpre
  rw [String.length_append] at hlen
  rw [show ("" : String).length = 0 from rfl] at hlen
  have hN : 0 < endingInstruction.length := by decide
  omega

/-- C2 (amended): the text returned by `getSystemPrompt` ends with the
fixed closing instruction block whenever the figure is unrecognized or the
mode is one of the figure's supported modes; in the remaining case — a
recognized figure with an unsupported mode — the result is the empty
string, which does not carry the closing block. -/
theorem endingInstruction_suffix_amended (figure mode : String) (topic : Option String) :
    (recognizedFigure figure = true → supportedMode figure mode = false →
      getSystemPrompt figure mode topic = "") ∧
    (recognizedFigure figure = false ∨ supportedMode figure mode = true →
      ∃ pre : String, getSystemPrompt figure mode topic = pre ++ endingInstruction) := by
  refine ⟨fun hr hm => unsupported_empty figure mode topic hr hm, ?_⟩
  rintro (hf | hm)
  · rw [unrecognized_fallback figure mode topic hf]
    by_cases hs : mode = "scenario"
    · rw [if_pos hs]
      exact ⟨_, rfl⟩
    · rw [if_neg hs]
      exact ⟨_, rfl⟩
  · obtain ⟨pre, mid, _, heq⟩ := supported_shape figure mode hm
    exact ⟨pre ++ topicStr topic ++ mid, by rw [heq topic]⟩

theorem endingInstruction_suffix_amended_witness :
    getSystemPrompt "Aristotle" "lesson" none = "" ∧
    ∃ pre : String,
      getSystemPrompt "Aristotle" "socratic" (some "courage") = pre ++ endingInstruction :=
  ⟨(endingInstruction_suffix_amended "Aristotle" "lesson" none).1 (by decide) (by decide),
   (endingInstruction_suffix_amended "Aristotle" "socratic" (some "courage")).2
     (Or.inr (by decide))⟩

/-- C7: for every recognized (figure, mode) pair — all of whose templates
embed a topic — and every non-empty topic string, `getSystemPrompt`
returns a non-empty string containing the topic verbatim as a substring. -/
theorem topic_embedded_verbatim (figure mode topic : String)
    (hm : supportedMode figure mode = true) (_ht : topic ≠ "") :
    getSystemPrompt figure mode (some topic) ≠ "" ∧
    ∃ pre post : String,
      getSystemPrompt figure mode (some topic) = pre ++ topic ++ post := by
  obtain ⟨pre, mid, hpre, heq⟩ := supported_shape figure mode hm
  have h := heq (some topic)
  simp only [topicStr] at h
  constructor
  · rw [h]
    intro h0
    have hlen := congrArg String.length h0
    rw [String.length_append, String.length_append, String.length_append] at hlen
    rw [show ("" : String).length = 0 from rfl] at hlen
    have hp := string_length_pos_of_ne_empty pre hpre
    omega
  · exact ⟨pre, mid ++ endingInstruction, by rw [h]; simp [String.append_assoc]⟩

theorem topic_embedded_verbatim_witness :
    supportedMode "Aristotle" "socratic" = true ∧ ("courage" : String) ≠ "" ∧
    (getSystemPrompt "Aristotle" "socratic" (some "courage") ≠ "" ∧
     ∃ pre post : String,
       getSystemPrompt "Aristotle" "socratic" (some "courage") = pre ++ "courage" ++ post) :=
  ⟨by decide, by decide,
   topic_embedded_verbatim "Aristotle" "socratic" "courage" (by decide) (by decide)⟩

/-- C5: for every selector and every history list, the assembled outbound
message list has length `len(history) + 1`, its first element has
role=system with content equal to the prompt-catalog result for the
selector, and elements `1..N` are the history entries in caller-given
order (projected to role and content). -/
theorem assemble_length_and_head (figure mode : String) (topic : Option String)
    (history : List ClientMessage) :
    (assemble figure mode topic history).length = history.length + 1 ∧
    (assemble figure mode topic history).head? =
      some { role := Role.system, content := getSystemPrompt figure mode topic } ∧
    ∀ i : Nat, (assemble figure mode topic history)[i + 1]? =
      (history[i]?).map projectMsg := by
  refine ⟨by simp [assemble], rfl, ?_⟩
  intro i
  simp [assemble]

/-- C9: the prompt catalog is deterministic — two calls with identical
(figure, mode, topic) inputs return byte-identical strings. -/
theorem getSystemPrompt_deterministic (f₁ f₂ m₁ m₂ : String)
    (t₁ t₂ : Option String) (hf : f₁ = f₂) (hm : m₁ = m₂) (ht : t₁ = t₂) :
    getSystemPrompt f₁ m₁ t₁ = getSystemPrompt f₂ m₂ t₂ := by
  subst hf; subst hm; subst ht; rfl

theorem getSystemPrompt_deterministic_witness :
    getSystemPrompt "Aristotle" "socratic" (some "courage") =
      getSystemPrompt "Aristotle" "socratic" (some "courage") :=
  getSystemPrompt_deterministic "Aristotle" "Aristotle" "socratic" "socratic"
    (some "courage") (some "courage") rfl rfl rfl

/-- C10: message assembly performs no role validation or filtering — every
history entry, including one with role=system, reappears with its role and
content unchanged at position `i + 1` of the assembled list (only the other
fields, such as `name`, are dropped). -/
theorem history_system_role_forwarded (figure mode : String)
    (topic : Option String) (history : List ClientMessage) (i : Nat)
    (m : ClientMessage) (hi : history[i]? = some m) :
    (assemble figure mode topic history)[i + 1]? =
      some { role := m.role, content := m.content } := by
  simp [assemble, hi, projectMsg]

theorem history_system_role_forwarded_witness :
    (assemble "Aristotle" "socratic" (some "courage")
        [{ role := Role.system, content := "override", name := some "mallory" }])[0 + 1]? =
      some { role := Role.system, content := "override" } :=
  history_system_role_forwarded "Aristotle" "socratic" (some "courage")
    [{ role := Role.system, content := "override", name := some "mallory" }] 0
    { role := Role.system, content := "override", name := some "mallory" } rfl

/-- C8: message assembly never mutates the caller-supplied history — in the
state-passing embedding of the handler body the `clientMessages` binding is
unchanged (hence every entry is unchanged), the `messages` list built from
an empty array equals the pure `assemble` output, and the produced list can
never be the caller's list since its length always differs. -/
theorem assembly_no_mutation (figure mode : String) (topic : Option String)
    (st : HandlerState) :
    (runAssembly figure mode topic st).clientMessages = st.clientMessages ∧
    (st.messages = [] →
      (runAssembly figure mode topic st).messages =
        assemble figure mode topic st.clientMessages) ∧
    (assemble figure mode topic st.clientMessages).length ≠ st.clientMessages.length := by
  refine ⟨rfl, ?_, ?_⟩
  · intro h
    simp [runAssembly, h, assemble]
  · simp [assemble]

theorem assembly_no_mutation_witness :
    (runAssembly "Aristotle" "socratic" (some "courage")
        { clientMessages := [{ role := Role.user, content := "hi", name := none }],
          messages := [] }).clientMessages =
      [{ role := Role.user, content := "hi", name := none }] ∧
    (runAssembly "Aristotle" "socratic" (some "courage")
        { clientMessages := [{ role := Role.user, content := "hi", name := none }],
          messages := [] }).messages =
      assemble "Aristotle" "socratic" (some "courage")
        [{ role := Role.user, content := "hi", name := none }] :=
  ⟨(assembly_no_mutation "Aristotle" "socratic" (some "courage")
      { clientMessages := [{ role := Role.user, content := "hi", name := none }],
        messages := [] }).1,
   (assembly_no_mutation "Aristotle" "socratic" (some "courage")
      { clientMessages := [{ role := Role.user, content := "hi", name := none }],
        messages := [] }).2.1 rfl⟩

/-- C6: buffered delivery writes exactly one response — on success the
single body `{response: text}` wrapping the upstream completion text, on
upstream error a single HTTP 500 with body `{error: "An error occurred
while processing your request."}`; no partial success body precedes the
error. -/
theorem bufferedChat_delivery (upstream : Except Unit (List Choice)) :
    (∀ choices c text, upstream = Except.ok choices → choices[0]? = some c →
        c.message.content = some text →
        bufferedChat upstream =
          [{ status := 200, body := [("response", JVal.jstr text)] }]) ∧
    (∀ e, upstream = Except.error e →
        bufferedChat upstream =
          [{ status := 500, body := [("error", JVal.jstr chatErrorMessage)] }]) ∧
    (bufferedChat upstream).length = 1 := by
  refine ⟨?_, ?_, ?_⟩
  · rintro choices c text rfl h hc
    simp [bufferedChat, h, hc]
  · rintro e rfl
    rfl
  · cases upstream with
    | error e => rfl
    | ok choices => cases h : choices[0]? <;> simp [bufferedChat, h]

theorem bufferedChat_delivery_witness :
    bufferedChat (Except.error ()) =
      [{ status := 500, body := [("error", JVal.jstr chatErrorMessage)] }] ∧
    bufferedChat (Except.ok [{ message := { content := some "wisdom" } }]) =
      [{ status := 200, body := [("response", JVal.jstr "wisdom")] }] :=
  ⟨(bufferedChat_delivery (Except.error ())).2.1 () rfl,
   (bufferedChat_delivery (Except.ok [{ message := { content := some "wisdom" } }])).1
     [{ message := { content := some "wisdom" } }]
     { message := { content := some "wisdom" } } "wisdom" rfl rfl rfl⟩

end AristotleApi
